import Mathlib

/-!
Shallow embedding of the hypha Artifact Manager core (src/hypha/artifact.py)
and proofs about its artifact lifecycle, permission evaluation, version
indexing and child listing.  Each definition mirrors one function or code
region of the source; line numbers in the doc comments refer to
src/hypha/artifact.py.
-/

/-- A committed version entry, mirroring the `{version, comment, created_at}`
dicts stored in the `versions` JSON column. -/
structure VersionEntry where
  version : String
  comment : Option String
  created_at : Int
deriving DecidableEq, Repr

/-- A staged file entry `{path, download_weight}` as appended by `put_file`
(artifact.py line 1860).  `download_weight` is kept as an integer stand-in for
the float of the source; none of the verified claims computes with it. -/
structure StagedFile where
  path : String
  download_weight : Option Int
deriving DecidableEq, Repr

/-- The `staging` JSON column at the database level.  It can be SQL NULL, the
JSON literal null (what SQLAlchemy writes for a Python `None` on a JSON
column), or a JSON list of staged file entries.  The raw-SQL stage filter of
`list_children` (lines 2212-2231) distinguishes all three. -/
inductive StagingCol where
  | sqlNull
  | jsonNull
  | files (fs : List StagedFile)
deriving DecidableEq, Repr

/-- The Python-level view of the staging column: both NULL forms deserialize
to Python `None`. -/
def pyView : StagingCol → Option (List StagedFile)
  | .sqlNull => none
  | .jsonNull => none
  | .files fs => some fs

/-- `artifact.staging or []` (line 1221): Python `None` and the empty list are
both falsy and yield `[]`. -/
def stagingList : StagingCol → List StagedFile
  | .sqlNull => []
  | .jsonNull => []
  | .files fs => fs

/-- A permission value in `config.permissions`: either a permission code
string or an explicit operation list (`_expand_permission` line 410 treats
non-strings as lists). -/
inductive PermVal where
  | code (s : String)
  | ops (l : List String)
deriving DecidableEq, Repr

/-- The manifest JSON object, abstracted to a flat string map. The controller
never inspects manifest contents beyond truthiness in the verified claims. -/
abbrev Manifest := List (String × String)

/-- The secrets JSON object, abstracted to a flat string map.  Only the
presence of the column matters to the claims. -/
abbrev Secrets := List (String × String)

/-- The `config` JSON column, restricted to the recognized sub-keys that the
verified claims touch.  Keys the claims never read (collection_schema,
vectors_config, id_parts, zenodo) are omitted. -/
structure Config where
  permissions : Option (List (String × PermVal)) := none
  list_fields : Option (List String) := none
  download_weights : Option (List (String × Int)) := none
deriving DecidableEq, Repr

/-- The `artifacts` table row (class ArtifactModel, artifact.py lines 56-90).
Float counters are kept as integers; no claim computes with them. -/
structure ArtifactModel where
  id : String
  type : Option String := none
  workspace : String
  parent_id : Option String := none
  «alias» : Option String := none
  manifest : Option Manifest := none
  staging : StagingCol := .sqlNull
  download_count : Int := 0
  view_count : Int := 0
  file_count : Int := 0
  created_at : Int := 0
  created_by : Option String := none
  last_modified : Int := 0
  versions : Option (List VersionEntry) := none
  config : Option Config := none
  secrets : Option Secrets := none
deriving DecidableEq, Repr

/-- Python dict assignment `d[k] = v`: replace the value in place when the key
exists, otherwise append the pair at the end. -/
def dictInsert {α : Type} : List (String × α) → String → α → List (String × α)
  | [], k, v => [(k, v)]
  | kv :: tl, k, v => if kv.1 = k then (k, v) :: tl else kv :: dictInsert tl k v

/-- Python `d.update(other)`: assign every pair of `other` into `d` in order. -/
def dictUpdate {α : Type} (d other : List (String × α)) : List (String × α) :=
  other.foldl (fun acc kv => dictInsert acc kv.1 kv.2) d

/-- Python `d.pop(k, None)`: drop the entry for `k`. -/
def dictPop {α : Type} : List (String × α) → String → List (String × α)
  | [], _ => []
  | kv :: tl, k => if kv.1 = k then dictPop tl k else kv :: dictPop tl k

/-- A database cell value as rendered by `model_to_dict` (line 107): each
column keeps its typed payload. -/
inductive Cell where
  | strV (s : String)
  | optStrV (s : Option String)
  | intV (n : Int)
  | manifestV (m : Option Manifest)
  | stagingV (st : StagingCol)
  | versionsV (v : Option (List VersionEntry))
  | configV (c : Option Config)
  | secretsV (s : Option Secrets)
deriving DecidableEq, Repr

/-- A row rendered as a Python dict: ordered association list of column name
to cell value.  JSON snapshot serialization round-trips on this view. -/
abbrev RowDict := List (String × Cell)

/-- `model_to_dict` (line 107): the row as a dict over all table columns. -/
def model_to_dict (a : ArtifactModel) : RowDict :=
  [ ("id", .strV a.id),
    ("type", .optStrV a.type),
    ("workspace", .strV a.workspace),
    ("parent_id", .optStrV a.parent_id),
    ("alias", .optStrV a.«alias»),
    ("manifest", .manifestV a.manifest),
    ("staging", .stagingV a.staging),
    ("download_count", .intV a.download_count),
    ("view_count", .intV a.view_count),
    ("file_count", .intV a.file_count),
    ("created_at", .intV a.created_at),
    ("created_by", .optStrV a.created_by),
    ("last_modified", .intV a.last_modified),
    ("versions", .versionsV a.versions),
    ("config", .configV a.config),
    ("secrets", .secretsV a.secrets) ]

/-- Python f-string rendering of an optional string (None prints as None). -/
def optStrRepr : Option String → String
  | some s => s
  | none => "None"

/-- `_generate_artifact_data` (lines 398-408): render the row, rewrite
`parent_id` and `id` to workspace/alias form, add `_id`, and pop `secrets`. -/
def generate_artifact_data (a : ArtifactModel) (parent : Option ArtifactModel) : RowDict :=
  let d := model_to_dict a
  let d := match parent with
    | some p => dictInsert d "parent_id" (.strV (p.workspace ++ "/" ++ optStrRepr p.«alias»))
    | none => d
  let d := dictInsert d "id" (.strV (a.workspace ++ "/" ++ optStrRepr a.«alias»))
  let d := dictInsert d "_id" (.strV a.id)
  dictPop d "secrets"

/-- `_load_version_from_s3` (lines 810-833), data step: the snapshot dict read
back from S3, with `secrets` popped unless `include_secrets` is set. -/
def load_version_data (d : RowDict) (include_secrets : Bool) : RowDict :=
  if include_secrets then d else dictPop d "secrets"

/-- The `list_fields` guard of `list_children` (lines 2082-2088): a projection
that mentions `secrets` is rejected with an assertion error. -/
def validate_list_fields (lf : List String) : Except String (List String) :=
  if "secrets" ∈ lf then
    Except.error "Secrets cannot be included in list_fields."
  else Except.ok lf

/-- The column projection performed when `list_fields` is accepted (lines
2090-2092): only the named columns are selected. -/
def project_fields (a : ArtifactModel) (lf : List String) : RowDict :=
  (model_to_dict a).filter (fun kv => lf.contains kv.1)

/-- The permission-code table of `_expand_permission` (lines 413-508). -/
def permission_map : List (String × List String) :=
  [ ("n", []),
    ("l", ["list"]),
    ("l+", ["list", "create", "commit"]),
    ("lv", ["list", "list_vectors"]),
    ("lv+", ["list", "list_vectors", "create", "commit", "add_vectors",
             "add_documents"]),
    ("lf", ["list", "list_files"]),
    ("lf+", ["list", "list_files", "create", "commit", "put_file"]),
    ("r", ["read", "get_file", "list_files", "list", "search_by_vector",
           "search_by_text", "get_vector"]),
    ("r+", ["read", "get_file", "put_file", "list_files", "list",
            "search_by_vector", "search_by_text", "get_vector", "create",
            "commit", "add_vectors", "add_documents"]),
    ("rw", ["read", "get_file", "get_vector", "search_by_vector",
            "search_by_text", "list_files", "list_vectors", "list", "edit",
            "commit", "put_file", "add_vectors", "add_documents",
            "remove_file", "remove_vectors"]),
    ("rw+", ["read", "get_file", "get_vector", "search_by_vector",
             "search_by_text", "list_files", "list_vectors", "list", "edit",
             "commit", "put_file", "add_vectors", "add_documents",
             "remove_file", "remove_vectors", "create"]),
    ("*", ["read", "get_file", "get_vector", "search_by_vector",
           "search_by_text", "list_files", "list_vectors", "list", "edit",
           "commit", "put_file", "add_vectors", "add_documents",
           "remove_file", "remove_vectors", "create", "reset_stats",
           "publish"]) ]

/-- `_expand_permission` (lines 410-511): a code string is looked up in the
table with default `[]`; a non-string value is assumed to be a list and
returned verbatim. -/
def expand_permission : PermVal → List String
  | .code s => (permission_map.lookup s).getD []
  | .ops l => l

/-- Workspace permission tiers (hypha.core.UserPermission). -/
inductive UserPermission where
  | read
  | read_write
  | admin
deriving DecidableEq, Repr

/-- Numeric height of a tier, read ≤ read_write ≤ admin. -/
def UserPermission.level : UserPermission → Nat
  | .read => 1
  | .read_write => 2
  | .admin => 3

/-- The requesting user: id, anonymity flag and per-workspace effective
permission map (hypha.core.UserInfo). -/
structure UserInfo where
  id : String
  is_anonymous : Bool
  workspace_perms : List (String × UserPermission)

/-- Modelled from the spec: `UserInfo.check_permission` is defined in
`hypha/core/__init__.py`, which is not under src/.  Per the spec, the check
grants when the user has an effective permission on the workspace that is at
least the required tier. -/
def UserInfo.check_permission (u : UserInfo) (ws : String) (required : UserPermission) : Bool :=
  match u.workspace_perms.lookup ws with
  | some p => required.level ≤ p.level
  | none => false

/-- `artifact.config.get("permissions", {}) if artifact.config else {}`
(line 516). -/
def getPermissions (a : ArtifactModel) : List (String × PermVal) :=
  match a.config with
  | some c => c.permissions.getD []
  | none => []

/-- One step of `_check_permissions`: look the key up and test membership of
the operation in the expansion (lines 519-531 repeat this pattern for the
user id, the authenticated wildcard and the public wildcard). -/
def grant_by (permissions : List (String × PermVal)) (key : String) (op : String) : Bool :=
  match permissions.lookup key with
  | some p => decide (op ∈ expand_permission p)
  | none => false

/-- `_check_permissions` (lines 513-532): user-specific grant, then the
authenticated wildcard for non-anonymous users, then the public wildcard. -/
def check_permissions (a : ArtifactModel) (u : UserInfo) (op : String) : Bool :=
  let permissions := getPermissions a
  grant_by permissions u.id op ||
    (!u.is_anonymous && grant_by permissions "@" op) ||
    grant_by permissions "*" op

/-- The operation-to-tier table of `_get_artifact_with_permission`
(lines 546-566). -/
def operation_map : List (String × UserPermission) :=
  [ ("list", .read),
    ("read", .read),
    ("get_vector", .read),
    ("get_file", .read),
    ("list_files", .read),
    ("list_vectors", .read),
    ("search_by_text", .read),
    ("search_by_vector", .read),
    ("create", .read_write),
    ("edit", .read_write),
    ("commit", .read_write),
    ("add_vectors", .read_write),
    ("add_documents", .read_write),
    ("put_file", .read_write),
    ("remove_vectors", .read_write),
    ("remove_file", .read_write),
    ("delete", .admin),
    ("reset_stats", .admin),
    ("publish", .admin) ]

/-- The distinct Python exception kinds the controller raises: ValueError for
unsupported operations, KeyError for missing artifacts, PermissionError for
authorization failures. -/
inductive ArtifactError where
  | valueError (msg : String)
  | keyError (msg : String)
  | permissionError (msg : String)
deriving DecidableEq, Repr

/-- The SQL condition built by `_get_artifact_id_cond` (lines 352-364): an id
containing a slash matches by workspace and alias, otherwise by primary id. -/
inductive IdCond where
  | byAlias (ws al : String)
  | byId (i : String)
deriving DecidableEq, Repr

/-- Python `str.split` on a single separator character, over the character
list of the string. -/
def splitCharsOn (c : Char) : List Char → List (List Char)
  | [] => [[]]
  | x :: xs =>
    let r := splitCharsOn c xs
    if x = c then [] :: r
    else
      match r with
      | [] => [[x]]
      | h :: t => (x :: h) :: t

/-- `artifact_id.split("/")` of the source. -/
def splitSlash (s : String) : List String :=
  (splitCharsOn '/' s.data).map (fun l => String.mk l)

/-- `_get_artifact_id_cond` (lines 352-364): an id without a slash (its split
has one part) matches by primary id; an id splitting into exactly workspace
and alias matches by those; any other slashed id fails the assertion. -/
def get_artifact_id_cond (artifact_id : String) : Except ArtifactError IdCond :=
  match splitSlash artifact_id with
  | [_] => .ok (.byId artifact_id)
  | [ws, al] => .ok (.byAlias ws al)
  | _ => .error (.valueError "Invalid artifact ID format, it should be workspace/alias.")

/-- Whether a row satisfies an id condition. -/
def matches_cond (c : IdCond) (a : ArtifactModel) : Bool :=
  match c with
  | .byAlias ws al => a.workspace == ws && a.«alias» == some al
  | .byId i => a.id == i

def NOT_FOUND_MSG : String := "Artifact does not exist."

def PERMISSION_DENIED_MSG : String :=
  "User does not have permission to perform the operation on the artifact."

/-- `_get_artifact_with_parent` (lines 379-396): fetch the artifact (KeyError
when absent) and, when it has a parent id, fetch the parent row as well. -/
def get_artifact_with_parent (db : List ArtifactModel) (artifact_id : String) :
    Except ArtifactError (ArtifactModel × Option ArtifactModel) := do
  let c ← get_artifact_id_cond artifact_id
  match db.find? (matches_cond c) with
  | none => throw (.keyError NOT_FOUND_MSG)
  | some a =>
    match a.parent_id with
    | none => pure (a, none)
    | some pid => do
        let pc ← get_artifact_id_cond pid
        pure (a, db.find? (matches_cond pc))

/-- `_get_artifact_with_permission` (lines 534-588): resolve the required
tier (ValueError when the operation is unknown), fetch artifact and parent,
try the artifact-local grants, then the workspace tier, else raise a
PermissionError. -/
def get_artifact_with_permission (db : List ArtifactModel) (u : UserInfo)
    (artifact_id : String) (op : String) :
    Except ArtifactError (ArtifactModel × Option ArtifactModel) :=
  match operation_map.lookup op with
  | none => .error (.valueError "Operation is not supported.")
  | some required =>
    match get_artifact_with_parent db artifact_id with
    | .error e => .error e
    | .ok (a, parent) =>
      if check_permissions a u op then .ok (a, parent)
      else if u.check_permission a.workspace required then .ok (a, parent)
      else .error (.permissionError PERMISSION_DENIED_MSG)

/-- Grant condition 1 of the spec: artifact-local entry for the user id whose
expansion lists the operation. -/
def local_grant (a : ArtifactModel) (u : UserInfo) (op : String) : Prop :=
  ∃ p, (getPermissions a).lookup u.id = some p ∧ op ∈ expand_permission p

/-- Grant condition 2: authenticated wildcard. -/
def auth_grant (a : ArtifactModel) (u : UserInfo) (op : String) : Prop :=
  u.is_anonymous = false ∧
    ∃ p, (getPermissions a).lookup "@" = some p ∧ op ∈ expand_permission p

/-- Grant condition 3: public wildcard. -/
def public_grant (a : ArtifactModel) (op : String) : Prop :=
  ∃ p, (getPermissions a).lookup "*" = some p ∧ op ∈ expand_permission p

/-- Grant condition 4: workspace-level permission at least the required tier. -/
def ws_grant (u : UserInfo) (a : ArtifactModel) (required : UserPermission) : Prop :=
  ∃ wp, u.workspace_perms.lookup a.workspace = some wp ∧
    required.level ≤ wp.level

/-- The `version` argument as the Python callers pass it: None, a string, or
an integer. -/
inductive PyVal where
  | none
  | str (s : String)
  | int (i : Int)
deriving DecidableEq, Repr

/-- `_get_version_index` (lines 835-861).  `None` maps to `max(0, N-1)`;
`"latest"` returns `N-1` immediately with no emptiness check; `"stage"`
returns `N` without consulting `staging`; any other string is looked up among
the version labels and raises when absent (the source assigns `int(version)`
for digit strings at line 853 but then raises unconditionally at line 854, so
there is no fallback); an integer must only be non-negative, with no upper
bound check.  Branches that call `len(artifact.versions)` raise a TypeError
when the column is NULL, as Python does. -/
def get_version_index (a : ArtifactModel) (version : PyVal) : Except String Int :=
  match version with
  | .none =>
      match a.versions with
      | none => .error "TypeError: NoneType has no len"
      | some vs => .ok (max 0 ((vs.length : Int) - 1))
  | .str s =>
      if s = "latest" then
        match a.versions with
        | none => .error "TypeError: NoneType has no len"
        | some vs => .ok ((vs.length : Int) - 1)
      else if s = "stage" then
        match a.versions with
        | none => .error "TypeError: NoneType has no len"
        | some vs => .ok (vs.length : Int)
      else
        match a.versions with
        | none => .error "TypeError: NoneType is not iterable"
        | some vs =>
          match vs.findIdx? (fun v => v.version == s) with
          | some i => .ok (i : Int)
          | Option.none => .error "Artifact version does not exist."
  | .int i =>
      if 0 ≤ i then .ok i else .error "Version must be non-negative."

/-- Arguments reaching the core of `create` (lines 963-1058) after context
validation, parent resolution, the workspace persistence check and alias
allocation (which involve the external store and randomness and precede the
modelled region). -/
structure CreateArgs where
  id : String
  «alias» : Option String := none
  workspace : String
  parent : Option ArtifactModel := none
  manifest : Option Manifest := none
  typ : String := "generic"
  config : Option Config := none
  secrets : Option Secrets := none
  version : Option String := none
  comment : Option String := none
  user_id : String
  created_at : Int

/-- The permission merge of `create` (lines 1023-1029):
`permissions = config.get("permissions", {})`, then
`permissions[user_id] = "*"`, then `permissions.update(parent_permissions)`.
`parent_artifact.config["permissions"]` raises when the parent has no config
or no permissions key. -/
def merge_create_permissions (cfg : Config) (parent : Option ArtifactModel)
    (user_id : String) : Except String (List (String × PermVal)) := do
  let parent_permissions ←
    match parent with
    | some p =>
        match p.config with
        | some pc =>
            match pc.permissions with
            | some pp => pure pp
            | none => throw "KeyError: permissions"
        | none => throw "TypeError: NoneType is not subscriptable"
    | none => pure []
  let permissions := dictInsert (cfg.permissions.getD []) user_id (PermVal.code "*")
  pure (dictUpdate permissions parent_permissions)

/-- The row-construction core of `create` (lines 963, 1023-1058): merge
permissions, build `versions` (one entry only when the caller passes a
version string other than `"stage"`; label `v0` for `"new"` since the local
list is empty at that point; comment defaulting to Initial version), check
`assert manifest`, and build the new row with `staging = []` only in the
staged case.  The stored manifest is always the caller manifest. -/
def create_artifact (args : CreateArgs) : Except String ArtifactModel := do
  let config := args.config.getD {}
  let permissions ← merge_create_permissions config args.parent args.user_id
  let config := { config with permissions := some permissions }
  let versions : List VersionEntry :=
    match args.version with
    | none => []
    | some v =>
      if v = "stage" then []
      else
        [⟨if v = "new" then "v0" else v,
          some (args.comment.getD "Initial version"), args.created_at⟩]
  let manifest ←
    match args.manifest with
    | some m => if m.isEmpty then throw "AssertionError: Manifest must be provided." else pure m
    | none => throw "AssertionError: Manifest must be provided."
  pure { id := args.id,
         workspace := args.workspace,
         parent_id := args.parent.map (fun p => p.id),
         «alias» := args.«alias»,
         staging := if args.version = some "stage" then .files [] else .jsonNull,
         manifest := some manifest,
         created_by := some args.user_id,
         created_at := args.created_at,
         last_modified := args.created_at,
         config := some config,
         secrets := args.secrets,
         versions := some versions,
         type := some args.typ }

/-- Arguments of `edit` (lines 1139-1148) paired with the acting user and the
current time. -/
structure EditArgs where
  manifest : Option Manifest := none
  typ : Option String := none
  config : Option Config := none
  secrets : Option Secrets := none
  version : Option String := none
  comment : Option String := none
  user_id : String
  now : Int

/-- The version branch of `edit` (lines 1174-1193): a non-stage version
string appends a new entry (label `v<N>` for `"new"`) and resolves the index
of the latest entry; `"stage"` resolves the stage index; an omitted version
resolves the current index `max(0, N-1)`.  Returns the updated row, the
possibly rebound version string, and the snapshot index. -/
def edit_version_step (a : ArtifactModel) (args : EditArgs) :
    Except String (ArtifactModel × Option String × Int) :=
  match args.version with
  | some v =>
    if v = "stage" then
      match get_version_index a (.str "stage") with
      | .error e => .error e
      | .ok idx => .ok (a, some v, idx)
    else
      let versions := a.versions.getD []
      let label := if v = "new" then "v" ++ toString versions.length else v
      let versions := versions ++ [⟨label, args.comment, args.now⟩]
      let a := { a with versions := some versions }
      match get_version_index a (.str "latest") with
      | .error e => .error e
      | .ok idx => .ok (a, some label, idx)
  | none =>
    match get_version_index a .none with
    | .error e => .error e
    | .ok idx => .ok (a, none, idx)

/-- The config branch of `edit` (lines 1195-1207): a supplied config is
stored after the permissions merge, but the merge runs only when the artifact
has a parent; without a parent the config is stored verbatim. -/
def edit_config_step (a : ArtifactModel) (parent : Option ArtifactModel)
    (args : EditArgs) : Except String ArtifactModel :=
  match args.config with
  | none => .ok a
  | some cfg =>
    match parent with
    | none => .ok { a with config := some cfg }
    | some p =>
      match p.config with
      | none => .error "TypeError: NoneType is not subscriptable"
      | some pc =>
        match pc.permissions with
        | none => .error "KeyError: permissions"
        | some pperms =>
          let perms := dictUpdate
            (dictInsert (cfg.permissions.getD []) args.user_id (PermVal.code "*")) pperms
          .ok { a with config := some { cfg with permissions := some perms } }

/-- The opening selective updates of `edit` (lines 1161-1172): type from
`type or artifact.type`, then the manifest when supplied. -/
def edit_start (a0 : ArtifactModel) (args : EditArgs) : ArtifactModel :=
  let a1 := { a0 with type := match args.typ with | some t => some t | none => a0.type }
  match args.manifest with
  | some m => { a1 with manifest := some m }
  | none => a1

/-- The closing updates of `edit` (lines 1208-1224): secrets when supplied,
`last_modified`, and finally `staging = None` whenever the (possibly rebound)
version differs from `"stage"`, else `staging = staging or []`. -/
def edit_finalize (a4 : ArtifactModel) (args : EditArgs)
    (version : Option String) : ArtifactModel :=
  let a5 := match args.secrets with
    | some s => { a4 with secrets := some s }
    | none => a4
  let a6 := { a5 with last_modified := args.now }
  if version = some "stage" then { a6 with staging := .files (stagingList a6.staging) }
  else { a6 with staging := .jsonNull }

/-- `edit` (lines 1139-1234), metadata part: the selective updates, the
version branch, the config branch, and the closing updates.  The returned
integer is the index at which the snapshot is then written to S3. -/
def edit_artifact (a0 : ArtifactModel) (parent : Option ArtifactModel)
    (args : EditArgs) : Except String (ArtifactModel × Int) :=
  match edit_version_step (edit_start a0 args) args with
  | .error e => .error e
  | .ok (a3, version, version_index) =>
    match edit_config_step a3 parent args with
    | .error e => .error e
    | .ok a4 => .ok (edit_finalize a4 args version, version_index)

/-- Truthiness of the manifest for `assert artifact.manifest` (line 1377). -/
def manifestTruthy : Option Manifest → Bool
  | some (_ :: _) => true
  | _ => false

/-- The staged-file processing of `commit` (lines 1324-1363): when the
staging list is truthy, every staged blob is HEAD-checked against S3 (the
outcome of those external requests is `staged_files_exist`), positive
download weights are collected, and the blob count under the stage prefix
(`s3_file_count`) replaces `file_count`. -/
def commit_staging_step (snapshot : ArtifactModel) (config : Config)
    (s3_file_count : Int) (staged_files_exist : Bool) :
    Except String (Config × Int) :=
  match pyView snapshot.staging with
  | some (f :: fs) =>
      if !staged_files_exist then
        .error "FileNotFoundError: File does not exist in the artifact."
      else
        let weights := ((f :: fs).filter (fun e =>
            match e.download_weight with
            | some w => w > 0
            | none => false)).map (fun e => (e.path, e.download_weight.getD 0))
        .ok (if weights.isEmpty then config
             else { config with download_weights := some weights },
             s3_file_count)
  | _ => .ok (config, snapshot.file_count)

/-- `commit` (lines 1294-1409), metadata part, applied to the staged snapshot
row loaded back from S3.  The parent collection-schema validation uses the
external jsonschema library and touches no field of the row.  A version entry
is appended only when the caller passes a version string (label `v<N>` for
`"new"`); `staging` is always cleared. -/
def commit_artifact (snapshot : ArtifactModel) (version : Option String)
    (comment : Option String) (now : Int) (s3_file_count : Int)
    (staged_files_exist : Bool) : Except String ArtifactModel :=
  if version = some "stage" then
    .error "AssertionError: Version cannot be stage when committing."
  else
    let versions := snapshot.versions.getD []
    match commit_staging_step snapshot (snapshot.config.getD {})
        s3_file_count staged_files_exist with
    | .error e => .error e
    | .ok (config, file_count) =>
      if !manifestTruthy snapshot.manifest then
        .error "AssertionError: Artifact must be in staging mode to commit."
      else
        let versions2 :=
          match version with
          | none => versions
          | some v =>
            versions ++ [⟨if v = "new" then "v" ++ toString versions.length else v,
                          comment, now⟩]
        .ok { snapshot with
              versions := some versions2
              config := some config
              staging := .jsonNull
              last_modified := now
              file_count := file_count }

/-- An object-store request, as issued by `_delete_version_files_from_s3`
(lines 863-886). -/
inductive S3Op where
  | deleteObject (bucket key : String)
  | removeObjects (bucket keyStart : String)
deriving DecidableEq, Repr

/-- Modelled from the spec: `safe_join` lives in hypha.utils, which is not
under src/.  Per the spec canonical-key table, segments are joined with
slashes (an empty configured prefix contributes nothing). -/
def safe_join (segs : List String) : String :=
  String.intercalate "/" (segs.filter (fun s => s ≠ ""))

/-- The canonical per-version key prefix
`<prefix>/<workspace>/<artifacts_dir>/<artifact-id>/v<i>` (lines 871-877). -/
def version_key (s3pre ws artifacts_dir id : String) (version_index : Int) : String :=
  safe_join [s3pre, ws, artifacts_dir, id, "v" ++ toString version_index]

/-- The S3 requests `_delete_version_files_from_s3` issues when actually
awaited (lines 863-886): delete the `v<i>.json` snapshot, and when
`delete_files` is set also remove everything under the `v<i>/` prefix. -/
def delete_version_files_s3_ops (version_index : Int) (a : ArtifactModel)
    (s3pre bucket artifacts_dir : String) (delete_files : Bool) : List S3Op :=
  let key := version_key s3pre a.workspace artifacts_dir a.id version_index
  [S3Op.deleteObject bucket (key ++ ".json")] ++
    (if delete_files then [S3Op.removeObjects bucket (key ++ "/")] else [])

/-- Python `list.pop(i)`: negative indices count from the end; out-of-range
indices raise IndexError. -/
def pyPop {α : Type} (l : List α) (i : Int) : Except String (List α) :=
  let j := if i < 0 then i + l.length else i
  if 0 ≤ j ∧ j.toNat < l.length then
    .ok (l.eraseIdx j.toNat)
  else .error "IndexError: pop index out of range"

/-- The per-version branch of `delete` (lines 1469-1478): resolve the index,
pop it from `versions`, and call `_delete_version_files_from_s3`.  The call
at line 1475 is made without `await`: the coroutine object is created and
discarded, so none of its S3 requests is ever issued.  The second component
of the result is the list of S3 requests actually executed before the
operation returns. -/
def delete_artifact_version (a : ArtifactModel) (version : PyVal)
    (delete_files : Bool) (s3pre bucket artifacts_dir : String) :
    Except String (ArtifactModel × List S3Op) := do
  let idx ← get_version_index a version
  let vs ←
    match a.versions with
    | some vs => pure vs
    | none => throw "TypeError: NoneType has no pop"
  let vs2 ← pyPop vs idx
  let _coroutine := delete_version_files_s3_ops idx a s3pre bucket artifacts_dir delete_files
  let executed : List S3Op := []
  pure ({ a with versions := some vs2 }, executed)

/-- The scope of `list_children` with a parent (lines 2090-2103): rows whose
`parent_id` equals the parent row id. -/
def child_scope (db : List ArtifactModel) (parent : ArtifactModel) : List ArtifactModel :=
  db.filter (fun r => r.parent_id == some parent.id)

/-- Whether the staging column is NULL at the SQL level in either form. -/
def isNullStaging : StagingCol → Bool
  | .sqlNull => true
  | .jsonNull => true
  | .files _ => false

/-- The stage filter of `list_children` (lines 2212-2231): with
`filters.stage` truthy the query keeps rows whose staging column is neither
SQL NULL nor the JSON literal null; otherwise it keeps exactly the
complementary rows. -/
def stage_condition (stage : Bool) (r : ArtifactModel) : Bool :=
  if stage then !(isNullStaging r.staging) else isNullStaging r.staging

/-- Insertion step of a stable sort. -/
def insertSorted {α : Type} (le : α → α → Bool) (x : α) : List α → List α
  | [] => [x]
  | y :: ys => if le x y then x :: y :: ys else y :: insertSorted le x ys

/-- Stable insertion sort, standing in for the SQL ORDER BY. -/
def sortRows {α : Type} (le : α → α → Bool) (l : List α) : List α :=
  l.foldr (insertSorted le) []

/-- Lexicographic comparison of character lists by code point, the order SQL
uses for the id column. -/
def charListLe : List Char → List Char → Bool
  | [], _ => true
  | _ :: _, [] => false
  | a :: as, b :: bs =>
    if a.toNat < b.toNat then true
    else if b.toNat < a.toNat then false
    else charListLe as bs

/-- Lexicographic string comparison by code point. -/
def strLeBool (a b : String) : Bool := charListLe a.data b.data

/-- The default ordering of `list_children` (lines 2256-2275): `order_by`
defaults to `"id"`, and since `"id"` contains no `<` the sort is
descending. -/
def defaultOrder (x y : ArtifactModel) : Bool :=
  strLeBool y.id x.id

/-- The row set produced by `list_children` for a parent with
`filters = {stage: b}` and no other filters or keywords (lines 2090-2279):
scope to the children, apply the stage condition, order, then apply OFFSET
and LIMIT. -/
def list_children_query (db : List ArtifactModel) (parent : ArtifactModel)
    (stage : Bool) (offset limit : Nat) : List ArtifactModel :=
  (((sortRows defaultOrder
      ((child_scope db parent).filter (stage_condition stage))).drop offset).take limit)

/-- The dict list `list_children` returns for those rows (lines 2282-2287). -/
def list_children_response (db : List ArtifactModel) (parent : ArtifactModel)
    (stage : Bool) (offset limit : Nat) : List RowDict :=
  (list_children_query db parent stage offset limit).map
    (fun r => generate_artifact_data r (some parent))

/-- The response of `create` (line 1092). -/
def create_response (args : CreateArgs) : Except String RowDict :=
  (create_artifact args).map (fun a => generate_artifact_data a args.parent)

/-- The response of `edit` (line 1230). -/
def edit_response (a : ArtifactModel) (parent : Option ArtifactModel)
    (args : EditArgs) : Except String RowDict :=
  (edit_artifact a parent args).map (fun p => generate_artifact_data p.1 parent)

/-- The response of `commit` (line 1405). -/
def commit_response (snapshot : ArtifactModel) (parent : Option ArtifactModel)
    (version : Option String) (comment : Option String) (now : Int)
    (s3_file_count : Int) (staged_files_exist : Bool) : Except String RowDict :=
  (commit_artifact snapshot version comment now s3_file_count staged_files_exist).map
    (fun a => generate_artifact_data a parent)

/-- The response of `read` (lines 1257-1266): when the selector resolves to
the current index the live row is rendered, otherwise the snapshot for that
version is loaded from S3 (its parsed dict is `snapshot` here) with secrets
stripped.  The config count attachment for collections (lines 1268-1283)
only touches the config sub-dict and is omitted. -/
def read_response (a : ArtifactModel) (parent : Option ArtifactModel)
    (version : PyVal) (snapshot : RowDict) : Except String RowDict := do
  let vi ← get_version_index a version
  let cur ← get_version_index a .none
  if vi = cur then pure (generate_artifact_data a parent)
  else pure (load_version_data snapshot false)

/-- Decidable equality for `Except`, used to evaluate the embedded
operations on concrete inputs. -/
instance {ε α : Type} [DecidableEq ε] [DecidableEq α] : DecidableEq (Except ε α) :=
  fun x y =>
    match x, y with
    | .ok a, .ok b =>
        if h : a = b then isTrue (by rw [h]) else isFalse (by intro he; cases he; exact h rfl)
    | .error a, .error b =>
        if h : a = b then isTrue (by rw [h]) else isFalse (by intro he; cases he; exact h rfl)
    | .ok _, .error _ => isFalse (by intro he; cases he)
    | .error _, .ok _ => isFalse (by intro he; cases he)

/-- A committed v0 entry used by concrete instances. -/
def entryV0 : VersionEntry := ⟨"v0", some "Initial version", 10⟩

/-- A committed v1 entry used by concrete instances. -/
def entryV1 : VersionEntry := ⟨"v1", none, 20⟩

/-- A committed artifact with two versions, used as a concrete instance. -/
def artTwo : ArtifactModel :=
  { id := "0192-two", workspace := "ws1", «alias» := some "two",
    manifest := some [("name", "two")],
    versions := some [entryV0, entryV1],
    config := some { permissions := some [("alice", .code "r")] } }

/-- A committed artifact with no versions, used as a concrete instance. -/
def artEmpty : ArtifactModel :=
  { id := "0192-empty", workspace := "ws1", «alias» := some "empty",
    manifest := some [("name", "empty")],
    versions := some [] }

/-- Concrete `create` arguments with the version argument omitted. -/
def argsNoVersion : CreateArgs :=
  { id := "0192-a", workspace := "ws1", manifest := some [("name", "a")],
    user_id := "u1", created_at := 100 }

/-- Concrete `create` arguments with `version = "stage"`. -/
def argsStage : CreateArgs :=
  { id := "0192-b", workspace := "ws1", manifest := some [("name", "b")],
    user_id := "u1", created_at := 100, version := some "stage" }

/-- Concrete `create` arguments with `version = "new"`. -/
def argsNew : CreateArgs :=
  { id := "0192-c", workspace := "ws1", manifest := some [("name", "c")],
    user_id := "u1", created_at := 100, version := some "new" }

/-- The spec worked example: parent permissions alice r, caller bob rw,
creator carol. -/
def parentPermEx : ArtifactModel :=
  { id := "0192-p", workspace := "ws1", «alias» := some "parent",
    manifest := some [("name", "p")], versions := some [entryV0],
    config := some { permissions := some [("alice", .code "r")] } }

def argsCarol : CreateArgs :=
  { id := "0192-d", workspace := "ws1", parent := some parentPermEx,
    manifest := some [("name", "d")],
    config := some { permissions := some [("bob", .code "rw")] },
    user_id := "carol", created_at := 100, version := some "v1.0" }

/-- Parent permissions that already contain the creator: the merge overrides
the creator grant. -/
def parentPermCarol : ArtifactModel :=
  { id := "0192-q", workspace := "ws1", «alias» := some "parentq",
    manifest := some [("name", "q")], versions := some [entryV0],
    config := some { permissions := some [("carol", .code "r")] } }

def argsCarolOverride : CreateArgs :=
  { id := "0192-e", workspace := "ws1", parent := some parentPermCarol,
    manifest := some [("name", "e")],
    user_id := "carol", created_at := 100 }

/-- Concrete `edit` arguments supplying a config, acting user u1, version
omitted. -/
def editArgsConfig : EditArgs :=
  { config := some { permissions := some [] }, user_id := "u1", now := 200 }

/-- A staged snapshot row with one committed version, as `commit` loads it
back from S3. -/
def snapStaged : ArtifactModel :=
  { id := "0192-s", workspace := "ws1", «alias» := some "s",
    manifest := some [("name", "s")],
    staging := .files [⟨"a.csv", some 2⟩],
    versions := some [entryV0] }

/-- A parent collection row for the listing instances. -/
def parentRow : ArtifactModel :=
  { id := "0192-par", workspace := "ws1", «alias» := some "col",
    type := some "collection", manifest := some [("name", "col")],
    versions := some [entryV0],
    config := some { permissions := some [] } }

/-- A non-staged child with the alphabetically smaller id. -/
def childA : ArtifactModel :=
  { id := "a-child", workspace := "ws1", parent_id := some "0192-par",
    «alias» := some "ca", manifest := some [("name", "ca")],
    staging := .jsonNull, versions := some [entryV0] }

/-- A non-staged child with the alphabetically larger id. -/
def childB : ArtifactModel :=
  { id := "b-child", workspace := "ws1", parent_id := some "0192-par",
    «alias» := some "cb", manifest := some [("name", "cb")],
    staging := .sqlNull, versions := some [entryV0] }

/-- A staged child of the same parent. -/
def childC : ArtifactModel :=
  { id := "c-child", workspace := "ws1", parent_id := some "0192-par",
    «alias» := some "cc", manifest := some [("name", "cc")],
    staging := .files [⟨"f.txt", some 0⟩], versions := some [] }

/-- The artifacts table used by the listing instances. -/
def dbListing : List ArtifactModel := [parentRow, childA, childB, childC]

/-- The row `create` stores for `argsStage`. -/
def artStageOut : ArtifactModel :=
  { id := "0192-b", workspace := "ws1", parent_id := none, «alias» := none,
    staging := .files [], manifest := some [("name", "b")],
    created_by := some "u1", created_at := 100, last_modified := 100,
    config := some { permissions := some [("u1", .code "*")] },
    secrets := none, versions := some [], type := some "generic" }

/-- The row `edit` stores for `artTwo` with `editArgsConfig`: the supplied
config verbatim, staging cleared. -/
def editOutVerbatim : ArtifactModel :=
  { artTwo with
    config := some { permissions := some [] }
    last_modified := 200
    staging := .jsonNull }

/-- The row `commit` stores for `snapStaged` with `version = "new"`. -/
def commitOutNew : ArtifactModel :=
  { snapStaged with
    versions := some [entryV0, ⟨"v1", none, 300⟩]
    staging := .jsonNull
    last_modified := 300
    file_count := 1
    config := some { download_weights := some [("a.csv", 2)] } }

/-- An authenticated user holding read permission on workspace ws1. -/
def userAlice : UserInfo :=
  { id := "alice", is_anonymous := false, workspace_perms := [("ws1", .read)] }

/-- A user with no artifact-local entry and no workspace permission. -/
def userMallory : UserInfo :=
  { id := "mallory", is_anonymous := false, workspace_perms := [] }

/-- A user whose only artifact-local entry carries an unrecognized code. -/
def userUnknownCode : UserInfo :=
  { id := "uu", is_anonymous := false, workspace_perms := [("ws1", .read_write)] }

/-- An artifact whose permissions carry an unrecognized code for `uu`. -/
def artUnknownCode : ArtifactModel :=
  { id := "0192-u", workspace := "ws1", «alias» := some "u",
    manifest := some [("name", "u")], versions := some [entryV0],
    config := some { permissions := some [("uu", .code "rwx")] } }

/-- The artifacts table used by the permission instances. -/
def dbPerm : List ArtifactModel := [artTwo, artUnknownCode]

theorem lookup_dictPop {α : Type} (d : List (String × α)) (k : String) :
    (dictPop d k).lookup k = none := by
  induction d with
  | nil => rfl
  | cons kv tl ih =>
    by_cases h : kv.1 = k
    · simpa [dictPop, h] using ih
    · have hb : (k == kv.1) = false := beq_eq_false_iff_ne.mpr (Ne.symm h)
      simpa [dictPop, h, List.lookup, hb] using ih

theorem lookup_generate_artifact_data (a : ArtifactModel) (parent : Option ArtifactModel) :
    (generate_artifact_data a parent).lookup "secrets" = none := by
  unfold generate_artifact_data
  exact lookup_dictPop _ "secrets"

theorem lookup_filter_not_contains {α : Type} (d : List (String × α)) (lf : List String)
    (k : String) (h : lf.contains k = false) :
    (d.filter (fun kv => lf.contains kv.1)).lookup k = none := by
  induction d with
  | nil => rfl
  | cons kv tl ih =>
    rw [List.filter_cons]
    by_cases hkv : lf.contains kv.1 = true
    · rw [if_pos hkv]
      have hne : (k == kv.1) = false := by
        apply beq_eq_false_iff_ne.mpr
        intro he
        rw [← he] at hkv
        rw [h] at hkv
        cases hkv
      simp only [List.lookup, hne]
      exact ih
    · rw [if_neg hkv]
      exact ih

theorem grant_by_iff (ps : List (String × PermVal)) (k op : String) :
    grant_by ps k op = true ↔ ∃ p, ps.lookup k = some p ∧ op ∈ expand_permission p := by
  cases h : ps.lookup k with
  | none => simp [grant_by, h]
  | some p => simp [grant_by, h]

theorem check_permissions_iff (a : ArtifactModel) (u : UserInfo) (op : String) :
    check_permissions a u op = true ↔
      local_grant a u op ∨ auth_grant a u op ∨ public_grant a op := by
  simp only [check_permissions, local_grant, auth_grant, public_grant,
    Bool.or_eq_true, Bool.and_eq_true, Bool.not_eq_true', grant_by_iff]
  exact or_assoc

theorem check_permission_iff (u : UserInfo) (a : ArtifactModel) (req : UserPermission) :
    u.check_permission a.workspace req = true ↔ ws_grant u a req := by
  unfold UserInfo.check_permission ws_grant
  cases h : u.workspace_perms.lookup a.workspace with
  | none => simp [h]
  | some wp => simp [h]

/-- Claim C1: every controller operation that returns artifact data (create,
edit, read of the live row, read of a past version loaded from its S3
snapshot, commit, and list_children, including listings projected through a
parent config list_fields) never returns the secrets field: snapshot reads
strip secrets before returning, and a list_fields projection mentioning
secrets is rejected with an error. -/
theorem C1_secrets_never_in_outputs :
    (∀ (a : ArtifactModel) (parent : Option ArtifactModel),
        (generate_artifact_data a parent).lookup "secrets" = none)
  ∧ (∀ d : RowDict, (load_version_data d false).lookup "secrets" = none)
  ∧ (∀ (args : CreateArgs) (d : RowDict), create_response args = .ok d →
        d.lookup "secrets" = none)
  ∧ (∀ (a : ArtifactModel) (parent : Option ArtifactModel) (args : EditArgs)
        (d : RowDict), edit_response a parent args = .ok d →
        d.lookup "secrets" = none)
  ∧ (∀ (snapshot : ArtifactModel) (parent : Option ArtifactModel)
        (version : Option String) (comment : Option String) (now fc : Int)
        (ex : Bool) (d : RowDict),
        commit_response snapshot parent version comment now fc ex = .ok d →
        d.lookup "secrets" = none)
  ∧ (∀ (a : ArtifactModel) (parent : Option ArtifactModel) (version : PyVal)
        (snap : RowDict) (d : RowDict),
        read_response a parent version snap = .ok d →
        d.lookup "secrets" = none)
  ∧ (∀ (db : List ArtifactModel) (parent : ArtifactModel) (stage : Bool)
        (offset limit : Nat) (d : RowDict),
        d ∈ list_children_response db parent stage offset limit →
        d.lookup "secrets" = none)
  ∧ (∀ lf : List String, "secrets" ∈ lf →
        validate_list_fields lf =
          .error "Secrets cannot be included in list_fields.")
  ∧ (∀ (a : ArtifactModel) (lf lf2 : List String),
        validate_list_fields lf = .ok lf2 →
        (project_fields a lf2).lookup "secrets" = none) := by
  have hgen := lookup_generate_artifact_data
  have hload : ∀ d : RowDict, (load_version_data d false).lookup "secrets" = none := by
    intro d
    unfold load_version_data
    simpa using lookup_dictPop d "secrets"
  refine ⟨hgen, hload, ?_, ?_, ?_, ?_, ?_, ?_, ?_⟩
  · intro args d h
    unfold create_response at h
    cases hc : create_artifact args with
    | error e => rw [hc] at h; cases h
    | ok a =>
      rw [hc] at h
      cases h
      exact hgen a args.parent
  · intro a parent args d h
    unfold edit_response at h
    cases hc : edit_artifact a parent args with
    | error e => rw [hc] at h; cases h
    | ok p =>
      rw [hc] at h
      cases h
      exact hgen p.1 parent
  · intro snapshot parent version comment now fc ex d h
    unfold commit_response at h
    cases hc : commit_artifact snapshot version comment now fc ex with
    | error e => rw [hc] at h; cases h
    | ok a =>
      rw [hc] at h
      cases h
      exact hgen a parent
  · intro a parent version snap d h
    unfold read_response at h
    cases hv : get_version_index a version with
    | error e => rw [hv] at h; cases h
    | ok vi =>
      cases hcur : get_version_index a PyVal.none with
      | error e => rw [hv, hcur] at h; cases h
      | ok cur =>
        rw [hv, hcur] at h
        simp only [Except.bind, bind, pure] at h
        by_cases he : vi = cur
        · rw [if_pos he] at h
          cases h
          exact hgen a parent
        · rw [if_neg he] at h
          cases h
          exact hload snap
  · intro db parent stage offset limit d h
    unfold list_children_response at h
    rcases List.mem_map.mp h with ⟨r, _, hr⟩
    rw [← hr]
    exact hgen r (some parent)
  · intro lf h
    unfold validate_list_fields
    rw [if_pos h]
  · intro a lf lf2 h
    unfold validate_list_fields at h
    by_cases hm : "secrets" ∈ lf
    · rw [if_pos hm] at h; cases h
    · rw [if_neg hm] at h
      cases h
      have hc : lf.contains "secrets" = false := by
        cases hb : lf.contains "secrets"
        · rfl
        · have hmem : "secrets" ∈ lf := by simpa using hb
          exact absurd hmem hm
      exact lookup_filter_not_contains _ lf _ hc

/-- Witness for C1 at concrete inputs. -/
theorem C1_secrets_never_in_outputs_witness :
    (generate_artifact_data artTwo none).lookup "secrets" = none
  ∧ validate_list_fields ["secrets"] =
      .error "Secrets cannot be included in list_fields." :=
  ⟨C1_secrets_never_in_outputs.1 artTwo none,
   C1_secrets_never_in_outputs.2.2.2.2.2.2.2.1 ["secrets"] (by decide)⟩

/-- Claim C2: for every user, artifact, and supported operation, access is
granted iff one of the four spec conditions holds (artifact-local grant for
the user id, authenticated wildcard, public wildcard, workspace tier at least
the required one, short-circuiting on the first grant); the required tiers
follow the enumerated table; denial raises a permission error distinct from
the not-found error raised for a missing artifact. -/
theorem C2_permission_evaluation (db : List ArtifactModel) (u : UserInfo)
    (aid op : String) (required : UserPermission) (a : ArtifactModel)
    (parent : Option ArtifactModel)
    (hop : operation_map.lookup op = some required)
    (hart : get_artifact_with_parent db aid = .ok (a, parent)) :
    ((get_artifact_with_permission db u aid op = .ok (a, parent)) ↔
       (local_grant a u op ∨ auth_grant a u op ∨ public_grant a op ∨
         ws_grant u a required))
  ∧ (¬(local_grant a u op ∨ auth_grant a u op ∨ public_grant a op ∨
        ws_grant u a required) →
       get_artifact_with_permission db u aid op =
         .error (.permissionError PERMISSION_DENIED_MSG))
  ∧ (∀ aid2, get_artifact_with_parent db aid2 = .error (.keyError NOT_FOUND_MSG) →
       get_artifact_with_permission db u aid2 op =
         .error (.keyError NOT_FOUND_MSG))
  ∧ (∀ m1 m2, ArtifactError.permissionError m1 ≠ ArtifactError.keyError m2)
  ∧ (operation_map.lookup "read" = some .read
      ∧ operation_map.lookup "get_file" = some .read
      ∧ operation_map.lookup "list_files" = some .read
      ∧ operation_map.lookup "list_vectors" = some .read
      ∧ operation_map.lookup "list" = some .read
      ∧ operation_map.lookup "get_vector" = some .read
      ∧ operation_map.lookup "search_by_vector" = some .read
      ∧ operation_map.lookup "search_by_text" = some .read
      ∧ operation_map.lookup "create" = some .read_write
      ∧ operation_map.lookup "edit" = some .read_write
      ∧ operation_map.lookup "commit" = some .read_write
      ∧ operation_map.lookup "put_file" = some .read_write
      ∧ operation_map.lookup "remove_file" = some .read_write
      ∧ operation_map.lookup "add_vectors" = some .read_write
      ∧ operation_map.lookup "add_documents" = some .read_write
      ∧ operation_map.lookup "remove_vectors" = some .read_write
      ∧ operation_map.lookup "delete" = some .admin
      ∧ operation_map.lookup "reset_stats" = some .admin
      ∧ operation_map.lookup "publish" = some .admin) := by
  have hmain : ∀ hres : Except ArtifactError (ArtifactModel × Option ArtifactModel),
      get_artifact_with_permission db u aid op = hres →
      (hres = .ok (a, parent) ↔
        (local_grant a u op ∨ auth_grant a u op ∨ public_grant a op ∨
          ws_grant u a required)) ∧
      (¬(local_grant a u op ∨ auth_grant a u op ∨ public_grant a op ∨
          ws_grant u a required) →
        hres = .error (.permissionError PERMISSION_DENIED_MSG)) := by
    intro hres hdef
    unfold get_artifact_with_permission at hdef
    rw [hop, hart] at hdef
    dsimp only at hdef
    by_cases hcp : check_permissions a u op = true
    · rw [if_pos hcp] at hdef
      have hg := (check_permissions_iff a u op).mp hcp
      have hgrant : local_grant a u op ∨ auth_grant a u op ∨ public_grant a op ∨
          ws_grant u a required := by
        rcases hg with h | h | h
        · exact Or.inl h
        · exact Or.inr (Or.inl h)
        · exact Or.inr (Or.inr (Or.inl h))
      constructor
      · rw [← hdef]
        exact ⟨fun _ => hgrant, fun _ => rfl⟩
      · intro hng
        exact absurd hgrant hng
    · rw [if_neg hcp] at hdef
      have hng3 : ¬(local_grant a u op ∨ auth_grant a u op ∨ public_grant a op) := by
        intro h
        exact hcp ((check_permissions_iff a u op).mpr h)
      by_cases hws : u.check_permission a.workspace required = true
      · rw [if_pos hws] at hdef
        have hg := (check_permission_iff u a required).mp hws
        constructor
        · rw [← hdef]
          constructor
          · intro _
            exact Or.inr (Or.inr (Or.inr hg))
          · intro _; rfl
        · intro hng
          exact absurd (Or.inr (Or.inr (Or.inr hg))) hng
      · rw [if_neg hws] at hdef
        constructor
        · rw [← hdef]
          constructor
          · intro h; cases h
          · intro h
            rcases h with h | h | h | h
            · exact absurd (Or.inl h) hng3
            · exact absurd (Or.inr (Or.inl h)) hng3
            · exact absurd (Or.inr (Or.inr h)) hng3
            · exact absurd ((check_permission_iff u a required).mpr h) hws
        · intro _
          exact hdef.symm
  have h0 := hmain (get_artifact_with_permission db u aid op) rfl
  refine ⟨h0.1, h0.2, ?_, ?_, by decide⟩
  · intro aid2 h2
    unfold get_artifact_with_permission
    rw [hop, h2]
  · intro m1 m2 h
    cases h

/-- Witness for C2: alice holds the artifact-local code r on artTwo, so read
is granted. -/
theorem C2_permission_evaluation_witness :
    get_artifact_with_permission dbPerm userAlice "0192-two" "read" =
      .ok (artTwo, none) :=
  (C2_permission_evaluation dbPerm userAlice "0192-two" "read"
      UserPermission.read artTwo none (by decide) (by decide)).1.mpr
    (Or.inl ⟨.code "r", by decide, by decide⟩)

/-- Counterexample to C3 as stated: with an empty versions list the selector
latest does not fail, it resolves to -1 and returns it. -/
theorem C3_counterexample_latest_empty :
    get_version_index artEmpty (.str "latest") = .ok (-1) := by decide

/-- Claim C3 as amended: with N = length of versions, `None` resolves to
`max(0, N-1)`; `"latest"` resolves to `N-1` with no failure when N = 0 (the
resolver returns -1, which only trips assertions later); `"stage"` resolves
to N regardless of the staging column; a named label resolves to the first
index carrying that label and raises an error when absent, with no fallback
to reading a digit string as an index; an integer `i ≥ 0` resolves to `i`
with no upper-bound check, and a negative integer fails the assertion. -/
theorem C3_version_selector (a : ArtifactModel) (vs : List VersionEntry)
    (hvs : a.versions = some vs) :
    get_version_index a .none = .ok (max 0 ((vs.length : Int) - 1))
  ∧ get_version_index a (.str "latest") = .ok ((vs.length : Int) - 1)
  ∧ get_version_index a (.str "stage") = .ok (vs.length : Int)
  ∧ (∀ st : StagingCol,
      get_version_index { a with staging := st } (.str "stage") =
        .ok (vs.length : Int))
  ∧ (∀ s i, s ≠ "latest" → s ≠ "stage" →
      vs.findIdx? (fun v => v.version == s) = some i →
      get_version_index a (.str s) = .ok (i : Int))
  ∧ (∀ s, s ≠ "latest" → s ≠ "stage" →
      vs.findIdx? (fun v => v.version == s) = none →
      get_version_index a (.str s) = .error "Artifact version does not exist.")
  ∧ (∀ i : Int, 0 ≤ i → get_version_index a (.int i) = .ok i)
  ∧ (∀ i : Int, i < 0 →
      get_version_index a (.int i) = .error "Version must be non-negative.") := by
  refine ⟨?_, ?_, ?_, ?_, ?_, ?_, ?_, ?_⟩
  · simp [get_version_index, hvs]
  · simp [get_version_index, hvs]
  · simp [get_version_index, hvs]
  · intro st
    simp [get_version_index, hvs]
  · intro s i h1 h2 hf
    simp [get_version_index, h1, h2, hvs, hf]
  · intro s h1 h2 hf
    simp [get_version_index, h1, h2, hvs, hf]
  · intro i hi
    simp [get_version_index, hi]
  · intro i hi
    simp [get_version_index, not_le.mpr hi]

/-- Witness for C3 at a two-version artifact. -/
theorem C3_version_selector_witness :
    get_version_index artTwo .none = .ok 1
  ∧ get_version_index artTwo (.str "stage") = .ok 2
  ∧ get_version_index artTwo (.str "v0") = .ok 0
  ∧ get_version_index artTwo (.str "7") = .error "Artifact version does not exist."
  ∧ get_version_index artTwo (.int 5) = .ok 5 := by
  have h := C3_version_selector artTwo [entryV0, entryV1] rfl
  refine ⟨?_, ?_, ?_, ?_, ?_⟩
  · rw [h.1]; decide
  · rw [h.2.2.1]; decide
  · rw [h.2.2.2.2.1 "v0" 0 (by decide) (by decide) (by decide)]; rfl
  · exact h.2.2.2.2.2.1 "7" (by decide) (by decide) (by decide)
  · exact h.2.2.2.2.2.2.1 5 (by decide)

/-- Counterexample to C4 as stated: with the version argument omitted (not
"stage") create stores an empty versions list instead of exactly one entry,
and with version "stage" the stored manifest is still non-null. -/
theorem C4_counterexample :
    (create_artifact argsNoVersion).map (fun a => a.versions) = .ok (some [])
  ∧ (create_artifact argsStage).map (fun a => a.manifest.isSome) = .ok true :=
  ⟨by decide, by decide⟩

/-- Claim C4 as amended: after a successful create, versions is empty iff the
caller passed "stage" or omitted the version; a version string other than
"stage" yields exactly one entry whose label is the string (v0 for "new")
with comment defaulting to Initial version; staging is the empty list exactly
in the staged case; and the stored manifest is always non-null. -/
theorem C4_create_versions (args : CreateArgs) (a : ArtifactModel)
    (hres : create_artifact args = .ok a) :
    (args.version = some "stage" → a.versions = some [] ∧ a.staging = .files [])
  ∧ (args.version = none → a.versions = some [] ∧ pyView a.staging = none)
  ∧ (∀ v, args.version = some v → v ≠ "stage" →
      a.versions = some [⟨if v = "new" then "v0" else v,
        some (args.comment.getD "Initial version"), args.created_at⟩]
      ∧ pyView a.staging = none)
  ∧ a.manifest.isSome = true := by
  unfold create_artifact at hres
  dsimp only at hres
  cases hm : merge_create_permissions (args.config.getD {}) args.parent args.user_id with
  | error e =>
      rw [hm] at hres
      simp only [bind, Except.bind] at hres
      cases hres
  | ok perms =>
      rw [hm] at hres
      simp only [bind, Except.bind] at hres
      cases hmf : args.manifest with
      | none =>
          rw [hmf] at hres
          dsimp only at hres
          cases hres
      | some m =>
          rw [hmf] at hres
          dsimp only at hres
          by_cases hme : m.isEmpty = true
          · rw [if_pos hme] at hres
            cases hres
          · rw [if_neg hme] at hres
            dsimp only [pure, Except.pure] at hres
            cases hres
            refine ⟨?_, ?_, ?_, ?_⟩
            · intro hv
              simp [hv]
            · intro hv
              simp [hv, pyView]
            · intro v hv hvs
              simp [hv, hvs, pyView]
            · simp

/-- Witness for C4 at the staged create instance. -/
theorem C4_create_versions_witness :
    create_artifact argsStage = .ok artStageOut
  ∧ (artStageOut.versions = some [] ∧ artStageOut.staging = .files [])
  ∧ artStageOut.manifest.isSome = true := by
  have hres : create_artifact argsStage = Except.ok artStageOut := by decide
  have h := C4_create_versions argsStage artStageOut hres
  exact ⟨hres, h.1 rfl, h.2.2.2⟩

theorem lookup_dictInsert_self {α : Type} (d : List (String × α)) (k : String) (v : α) :
    (dictInsert d k v).lookup k = some v := by
  induction d with
  | nil => simp [dictInsert, List.lookup]
  | cons kv tl ih =>
    by_cases h : kv.1 = k
    · simp [dictInsert, h, List.lookup]
    · have hb : (k == kv.1) = false := beq_eq_false_iff_ne.mpr (Ne.symm h)
      simpa [dictInsert, h, List.lookup, hb] using ih

theorem lookup_dictInsert_ne {α : Type} (d : List (String × α)) (k k' : String) (v : α)
    (h : k' ≠ k) : (dictInsert d k v).lookup k' = d.lookup k' := by
  induction d with
  | nil => simp [dictInsert, List.lookup, beq_eq_false_iff_ne.mpr h]
  | cons kv tl ih =>
    by_cases hk : kv.1 = k
    · have hb : (k' == k) = false := beq_eq_false_iff_ne.mpr h
      simp [dictInsert, hk, List.lookup, hb]
    · by_cases hk2 : k' = kv.1
      · simp [dictInsert, hk, List.lookup, hk2]
      · have hb : (k' == kv.1) = false := beq_eq_false_iff_ne.mpr hk2
        simpa [dictInsert, hk, List.lookup, hb] using ih

theorem lookup_dictUpdate_of_none {α : Type} (other d : List (String × α)) (k : String)
    (h : other.lookup k = none) : (dictUpdate d other).lookup k = d.lookup k := by
  induction other generalizing d with
  | nil => rfl
  | cons kv tl ih =>
    have h1 : (k == kv.1) = false := by
      cases hb : (k == kv.1)
      · rfl
      · exfalso
        simp only [List.lookup, hb] at h
        cases h
    have h2 : tl.lookup k = none := by
      simpa only [List.lookup, h1] using h
    have hkk : k ≠ kv.1 := by
      intro he
      rw [he] at h1
      simp at h1
    calc (dictUpdate d (kv :: tl)).lookup k
        = (dictUpdate (dictInsert d kv.1 kv.2) tl).lookup k := rfl
      _ = (dictInsert d kv.1 kv.2).lookup k := ih _ h2
      _ = d.lookup k := lookup_dictInsert_ne _ _ _ _ hkk

theorem create_artifact_ok_shape (args : CreateArgs) (a : ArtifactModel)
    (hres : create_artifact args = .ok a) :
    ∃ perms m,
      merge_create_permissions (args.config.getD {}) args.parent args.user_id = .ok perms
      ∧ args.manifest = some m
      ∧ a = { id := args.id,
              workspace := args.workspace,
              parent_id := args.parent.map (fun p => p.id),
              «alias» := args.«alias»,
              staging := if args.version = some "stage" then .files [] else .jsonNull,
              manifest := some m,
              created_by := some args.user_id,
              created_at := args.created_at,
              last_modified := args.created_at,
              config := some { args.config.getD {} with permissions := some perms },
              secrets := args.secrets,
              versions := some (match args.version with
                | none => []
                | some v =>
                  if v = "stage" then []
                  else [⟨if v = "new" then "v0" else v,
                        some (args.comment.getD "Initial version"), args.created_at⟩]),
              type := some args.typ } := by
  unfold create_artifact at hres
  dsimp only at hres
  cases hm : merge_create_permissions (args.config.getD {}) args.parent args.user_id with
  | error e =>
      rw [hm] at hres
      simp only [bind, Except.bind] at hres
      cases hres
  | ok perms =>
      rw [hm] at hres
      simp only [bind, Except.bind] at hres
      cases hmf : args.manifest with
      | none =>
          rw [hmf] at hres
          dsimp only at hres
          cases hres
      | some m =>
          rw [hmf] at hres
          dsimp only at hres
          by_cases hme : m.isEmpty = true
          · rw [if_pos hme] at hres
            cases hres
          · rw [if_neg hme] at hres
            dsimp only [pure, Except.pure] at hres
            cases hres
            exact ⟨perms, m, rfl, rfl, rfl⟩

theorem edit_finalize_fields (a4 : ArtifactModel) (args : EditArgs)
    (version : Option String) :
    (edit_finalize a4 args version).config = a4.config
  ∧ (edit_finalize a4 args version).versions = a4.versions
  ∧ (edit_finalize a4 args version).staging =
      (if version = some "stage" then StagingCol.files (stagingList a4.staging)
       else StagingCol.jsonNull) := by
  unfold edit_finalize
  cases args.secrets with
  | none =>
      by_cases hs : version = some "stage"
      · simp [hs]
      · simp [hs]
  | some s =>
      by_cases hs : version = some "stage"
      · simp [hs]
      · simp [hs]

theorem edit_config_step_versions (a3 : ArtifactModel) (parent : Option ArtifactModel)
    (args : EditArgs) (a4 : ArtifactModel)
    (h : edit_config_step a3 parent args = .ok a4) :
    a4.versions = a3.versions ∧ a4.staging = a3.staging := by
  unfold edit_config_step at h
  cases hc : args.config with
  | none =>
      rw [hc] at h
      cases h
      exact ⟨rfl, rfl⟩
  | some cfg =>
      rw [hc] at h
      cases parent with
      | none =>
          dsimp only at h
          cases h
          exact ⟨rfl, rfl⟩
      | some p =>
          dsimp only at h
          cases hpc : p.config with
          | none => rw [hpc] at h; cases h
          | some pc =>
              rw [hpc] at h
              dsimp only at h
              cases hpp : pc.permissions with
              | none => rw [hpp] at h; dsimp only at h; cases h
              | some pperms =>
                  rw [hpp] at h
                  dsimp only at h
                  cases h
                  exact ⟨rfl, rfl⟩

theorem edit_artifact_ok_config (a0 : ArtifactModel) (parent : Option ArtifactModel)
    (args : EditArgs) (res : ArtifactModel) (idx : Int) (cfg : Config)
    (hres : edit_artifact a0 parent args = .ok (res, idx))
    (hconf : args.config = some cfg) :
    (parent = none → res.config = some cfg)
  ∧ (∀ p pc pperms, parent = some p → p.config = some pc →
      pc.permissions = some pperms →
      res.config = some { cfg with permissions := some (dictUpdate
        (dictInsert (cfg.permissions.getD []) args.user_id (PermVal.code "*"))
        pperms) }) := by
  unfold edit_artifact at hres
  cases hv : edit_version_step (edit_start a0 args) args with
  | error e =>
      rw [hv] at hres
      cases hres
  | ok t =>
      obtain ⟨a3, version, vidx⟩ := t
      rw [hv] at hres
      dsimp only at hres
      constructor
      · intro hp
        subst hp
        unfold edit_config_step at hres
        rw [hconf] at hres
        dsimp only at hres
        cases hres
        exact (edit_finalize_fields _ args version).1
      · intro p pc pperms hp hpc hpp
        subst hp
        unfold edit_config_step at hres
        rw [hconf] at hres
        dsimp only at hres
        rw [hpc] at hres
        dsimp only at hres
        rw [hpp] at hres
        dsimp only at hres
        cases hres
        exact (edit_finalize_fields _ args version).1

theorem merge_create_permissions_parent (cfg : Config) (p : ArtifactModel)
    (pc : Config) (pperms : List (String × PermVal)) (user_id : String)
    (hpc : p.config = some pc) (hpp : pc.permissions = some pperms) :
    merge_create_permissions cfg (some p) user_id =
      .ok (dictUpdate (dictInsert (cfg.permissions.getD []) user_id
        (PermVal.code "*")) pperms) := by
  unfold merge_create_permissions
  dsimp only
  rw [hpc]
  dsimp only
  rw [hpp]
  rfl

theorem merge_create_permissions_none (cfg : Config) (user_id : String) :
    merge_create_permissions cfg none user_id =
      .ok (dictInsert (cfg.permissions.getD []) user_id (PermVal.code "*")) := by
  rfl

/-- Counterexample to C5 as stated: an edit that supplies a config on an
artifact without a parent stores the config verbatim, so the acting user u1
(who is also artTwo's creator for this instance) ends up with no permissions
entry at all, contradicting that permissions of the creator equal star after
every edit that supplies a config. -/
theorem C5_counterexample :
    (edit_artifact artTwo none editArgsConfig).map
      (fun p => (getPermissions p.1).lookup "u1") = .ok none := by decide

/-- Claim C5 as amended: after create, the stored permissions are the
caller-supplied map with the acting user assigned star and the parent
permissions merged on top (parent entries override, so a parent entry for the
creator replaces the star); the creator keeps star whenever the parent map
has no entry for them, and always when there is no parent.  After edit with a
config, the same merge applies only when the artifact has a parent; with no
parent the config is stored verbatim.  The spec worked example holds. -/
theorem C5_permissions_after_create_edit :
    (∀ (args : CreateArgs) (cfg : Config) (p : ArtifactModel) (pc : Config)
        (pperms : List (String × PermVal)) (a : ArtifactModel),
        args.config = some cfg → args.parent = some p → p.config = some pc →
        pc.permissions = some pperms → create_artifact args = .ok a →
        a.config = some { cfg with permissions := some (dictUpdate
          (dictInsert (cfg.permissions.getD []) args.user_id (PermVal.code "*"))
          pperms) })
  ∧ (∀ (args : CreateArgs) (cfg : Config) (p : ArtifactModel) (pc : Config)
        (pperms : List (String × PermVal)) (a : ArtifactModel),
        args.config = some cfg → args.parent = some p → p.config = some pc →
        pc.permissions = some pperms → pperms.lookup args.user_id = none →
        create_artifact args = .ok a →
        (getPermissions a).lookup args.user_id = some (PermVal.code "*"))
  ∧ (∀ (args : CreateArgs) (cfg : Config) (a : ArtifactModel),
        args.config = some cfg → args.parent = none →
        create_artifact args = .ok a →
        a.config = some { cfg with permissions := some (dictInsert
          (cfg.permissions.getD []) args.user_id (PermVal.code "*")) }
        ∧ (getPermissions a).lookup args.user_id = some (PermVal.code "*"))
  ∧ (∀ (a0 : ArtifactModel) (p : ArtifactModel) (args : EditArgs)
        (res : ArtifactModel) (idx : Int) (cfg : Config) (pc : Config)
        (pperms : List (String × PermVal)),
        args.config = some cfg → p.config = some pc →
        pc.permissions = some pperms →
        edit_artifact a0 (some p) args = .ok (res, idx) →
        res.config = some { cfg with permissions := some (dictUpdate
          (dictInsert (cfg.permissions.getD []) args.user_id (PermVal.code "*"))
          pperms) })
  ∧ (∀ (a0 : ArtifactModel) (args : EditArgs) (res : ArtifactModel) (idx : Int)
        (cfg : Config),
        args.config = some cfg →
        edit_artifact a0 none args = .ok (res, idx) →
        res.config = some cfg)
  ∧ ((create_artifact argsCarol).map (fun a =>
        ((getPermissions a).lookup "carol", (getPermissions a).lookup "bob",
         (getPermissions a).lookup "alice")) =
      .ok (some (.code "*"), some (.code "rw"), some (.code "r"))) := by
  have hcreate : ∀ (args : CreateArgs) (cfg : Config) (p : ArtifactModel)
      (pc : Config) (pperms : List (String × PermVal)) (a : ArtifactModel),
      args.config = some cfg → args.parent = some p → p.config = some pc →
      pc.permissions = some pperms → create_artifact args = .ok a →
      a.config = some { cfg with permissions := some (dictUpdate
        (dictInsert (cfg.permissions.getD []) args.user_id (PermVal.code "*"))
        pperms) } := by
    intro args cfg p pc pperms a hconf hp hpc hpp hres
    obtain ⟨perms, m, hm, hmf, hae⟩ := create_artifact_ok_shape args a hres
    rw [hconf, hp] at hm
    simp only [Option.getD_some] at hm
    rw [merge_create_permissions_parent cfg p pc pperms args.user_id hpc hpp] at hm
    cases hm
    rw [hae]
    simp [hconf]
  refine ⟨hcreate, ?_, ?_, ?_, ?_, by decide⟩
  · intro args cfg p pc pperms a hconf hp hpc hpp hlk hres
    have hc := hcreate args cfg p pc pperms a hconf hp hpc hpp hres
    unfold getPermissions
    rw [hc]
    simp only [Option.getD_some]
    rw [lookup_dictUpdate_of_none pperms _ _ hlk]
    exact lookup_dictInsert_self _ _ _
  · intro args cfg a hconf hp hres
    obtain ⟨perms, m, hm, hmf, hae⟩ := create_artifact_ok_shape args a hres
    rw [hconf, hp] at hm
    simp only [Option.getD_some] at hm
    rw [merge_create_permissions_none cfg args.user_id] at hm
    cases hm
    constructor
    · rw [hae]
      simp [hconf]
    · rw [hae]
      unfold getPermissions
      simp only [Option.getD_some]
      exact lookup_dictInsert_self _ _ _
  · intro a0 p args res idx cfg pc pperms hconf hpc hpp hres
    exact (edit_artifact_ok_config a0 (some p) args res idx cfg hres hconf).2
      p pc pperms rfl hpc hpp
  · intro a0 args res idx cfg hconf hres
    exact (edit_artifact_ok_config a0 none args res idx cfg hres hconf).1 rfl

/-- Witness for C5 at the verbatim edit instance. -/
theorem C5_permissions_after_create_edit_witness :
    edit_artifact artTwo none editArgsConfig = .ok (editOutVerbatim, 1)
  ∧ editOutVerbatim.config = some { permissions := some [] } := by
  have hres : edit_artifact artTwo none editArgsConfig =
      .ok (editOutVerbatim, 1) := by decide
  exact ⟨hres, C5_permissions_after_create_edit.2.2.2.2.1 artTwo editArgsConfig
    editOutVerbatim 1 { permissions := some [] } rfl hres⟩

/-- Counterexample to C6 as stated: committing a staged artifact with the
version argument omitted (its default) appends no entry at all; versions
stays at length one. -/
theorem C6_counterexample :
    (commit_artifact snapStaged none none 300 1 true).map
      (fun a => (a.versions, pyView a.staging)) = .ok (some [entryV0], none) := by
  decide

/-- Claim C6 as amended: a successful commit always clears staging (the
artifact leaves the staged state), and appends exactly one entry to versions
(labelled v<N> when the caller passes "new", N the prior length) when the
caller passes a version string; with the version argument omitted nothing is
appended. -/
theorem C6_commit_versions (snapshot : ArtifactModel) (version : Option String)
    (comment : Option String) (now fc : Int) (ex : Bool) (res : ArtifactModel)
    (hres : commit_artifact snapshot version comment now fc ex = .ok res) :
    pyView res.staging = none
  ∧ (version = none → res.versions = some (snapshot.versions.getD []))
  ∧ (∀ v, version = some v →
      res.versions = some ((snapshot.versions.getD []) ++
        [⟨if v = "new" then "v" ++ toString (snapshot.versions.getD []).length
            else v, comment, now⟩])) := by
  unfold commit_artifact at hres
  by_cases hs : version = some "stage"
  · rw [if_pos hs] at hres
    cases hres
  · rw [if_neg hs] at hres
    dsimp only at hres
    cases hstep : commit_staging_step snapshot (snapshot.config.getD {}) fc ex with
    | error e =>
        rw [hstep] at hres
        cases hres
    | ok t =>
        obtain ⟨config, file_count⟩ := t
        rw [hstep] at hres
        dsimp only at hres
        by_cases hmt : (!manifestTruthy snapshot.manifest) = true
        · rw [if_pos hmt] at hres
          cases hres
        · rw [if_neg hmt] at hres
          cases hres
          refine ⟨rfl, ?_, ?_⟩
          · intro hv
            simp [hv]
          · intro v hv
            simp [hv]

/-- Witness for C6 at the staged snapshot instance with version new. -/
theorem C6_commit_versions_witness :
    commit_artifact snapStaged (some "new") none 300 1 true = .ok commitOutNew
  ∧ pyView commitOutNew.staging = none
  ∧ commitOutNew.versions = some [entryV0, ⟨"v1", none, 300⟩] := by
  have hres : commit_artifact snapStaged (some "new") none 300 1 true =
      .ok commitOutNew := by decide
  have h := C6_commit_versions snapStaged (some "new") none 300 1 true
    commitOutNew hres
  refine ⟨hres, h.1, ?_⟩
  rw [h.2.2 "new" rfl]
  decide

/-- Claim C7 (code defect): the per-version delete pops the resolved entry
from versions, but the S3 cleanup call at line 1475 is never awaited, so the
list of S3 requests executed before returning is empty, although the cleanup
coroutine (had it been awaited, as the spec requires) would delete the
snapshot object and, with delete_files, the version blobs. -/
theorem C7_version_delete_skips_s3 :
    delete_artifact_version artTwo (.int 0) true "" "bucket" "artifacts" =
      .ok ({ artTwo with versions := some [entryV1] }, [])
  ∧ delete_version_files_s3_ops 0 artTwo "" "bucket" "artifacts" true =
      [.deleteObject "bucket" "ws1/artifacts/0192-two/v0.json",
       .removeObjects "bucket" "ws1/artifacts/0192-two/v0/"] :=
  ⟨by decide, by decide⟩

theorem mem_insertSorted {α : Type} (le : α → α → Bool) (x a : α) (l : List α) :
    a ∈ insertSorted le x l ↔ a = x ∨ a ∈ l := by
  induction l with
  | nil => simp [insertSorted]
  | cons y ys ih =>
    by_cases h : le x y = true
    · simp [insertSorted, h]
    · simp only [insertSorted, if_neg h, List.mem_cons, ih]
      tauto

theorem mem_sortRows {α : Type} (le : α → α → Bool) (a : α) (l : List α) :
    a ∈ sortRows le l ↔ a ∈ l := by
  induction l with
  | nil => simp [sortRows]
  | cons y ys ih =>
    show a ∈ insertSorted le y (sortRows le ys) ↔ _
    rw [mem_insertSorted]
    simp [ih]

theorem length_insertSorted {α : Type} (le : α → α → Bool) (x : α) (l : List α) :
    (insertSorted le x l).length = l.length + 1 := by
  induction l with
  | nil => rfl
  | cons y ys ih =>
    by_cases h : le x y = true
    · simp [insertSorted, h]
    · simp [insertSorted, h, ih]

theorem length_sortRows {α : Type} (le : α → α → Bool) (l : List α) :
    (sortRows le l).length = l.length := by
  induction l with
  | nil => rfl
  | cons y ys ih =>
    show (insertSorted le y (sortRows le ys)).length = ys.length + 1
    rw [length_insertSorted, ih]

/-- Counterexample to C8 as stated: with limit 1 (an otherwise admissible
argument), the non-staged child with the smaller id is dropped by LIMIT from
the stage-false page and is not in the stage-true page either, so the union
of the two result sets misses an immediate child. -/
theorem C8_counterexample :
    childA ∈ child_scope dbListing parentRow
  ∧ childA ∉ list_children_query dbListing parentRow true 0 1
  ∧ childA ∉ list_children_query dbListing parentRow false 0 1 :=
  ⟨by decide, by decide, by decide⟩

/-- Claim C8 as amended: the stage-true condition selects exactly the rows
whose staging column is neither SQL NULL nor the JSON literal null, and the
stage-false condition selects exactly the complementary rows; hence the two
result sets are always disjoint, and with offset 0 and both matching row
counts within the limit (pagination not truncating) their union is exactly
the set of immediate children. -/
theorem C8_stage_partition (db : List ArtifactModel) (parent : ArtifactModel)
    (limit : Nat) (r : ArtifactModel)
    (hT : ((child_scope db parent).filter (stage_condition true)).length ≤ limit)
    (hF : ((child_scope db parent).filter (stage_condition false)).length ≤ limit) :
    ¬(r ∈ list_children_query db parent true 0 limit ∧
      r ∈ list_children_query db parent false 0 limit)
  ∧ ((r ∈ list_children_query db parent true 0 limit ∨
      r ∈ list_children_query db parent false 0 limit) ↔
      r ∈ child_scope db parent)
  ∧ (stage_condition true r = true ↔
      (r.staging ≠ StagingCol.sqlNull ∧ r.staging ≠ StagingCol.jsonNull))
  ∧ (stage_condition false r = true ↔
      (r.staging = StagingCol.sqlNull ∨ r.staging = StagingCol.jsonNull)) := by
  have hq : ∀ b : Bool,
      ((child_scope db parent).filter (stage_condition b)).length ≤ limit →
      list_children_query db parent b 0 limit =
        sortRows defaultOrder ((child_scope db parent).filter (stage_condition b)) := by
    intro b hb
    unfold list_children_query
    rw [List.drop_zero, List.take_of_length_le]
    rw [length_sortRows]
    exact hb
  have hmem : ∀ b : Bool,
      ((child_scope db parent).filter (stage_condition b)).length ≤ limit →
      ∀ x : ArtifactModel, (x ∈ list_children_query db parent b 0 limit ↔
        x ∈ child_scope db parent ∧ stage_condition b x = true) := by
    intro b hb x
    rw [hq b hb, mem_sortRows, List.mem_filter]
  have hopp : ∀ x : ArtifactModel, stage_condition false x = !(stage_condition true x) := by
    intro x
    cases hst : x.staging <;> simp [stage_condition, isNullStaging]
  refine ⟨?_, ?_, ?_, ?_⟩
  · intro ⟨h1, h2⟩
    have e1 := ((hmem true hT r).mp h1).2
    have e2 := ((hmem false hF r).mp h2).2
    rw [hopp r, e1] at e2
    cases e2
  · constructor
    · intro h
      rcases h with h | h
      · exact ((hmem true hT r).mp h).1
      · exact ((hmem false hF r).mp h).1
    · intro h
      cases hc : stage_condition true r with
      | true => exact Or.inl ((hmem true hT r).mpr ⟨h, hc⟩)
      | false =>
          refine Or.inr ((hmem false hF r).mpr ⟨h, ?_⟩)
          rw [hopp r, hc]
          rfl
  · cases hst : r.staging <;> simp [stage_condition, isNullStaging, hst]
  · cases hst : r.staging <;> simp [stage_condition, isNullStaging, hst]

/-- Witness for C8 at the concrete listing instance. -/
theorem C8_stage_partition_witness :
    ((childA ∈ list_children_query dbListing parentRow true 0 100 ∨
      childA ∈ list_children_query dbListing parentRow false 0 100) ↔
      childA ∈ child_scope dbListing parentRow) :=
  (C8_stage_partition dbListing parentRow 100 childA (by decide) (by decide)).2.1

theorem edit_start_fields (a0 : ArtifactModel) (args : EditArgs) :
    (edit_start a0 args).versions = a0.versions
  ∧ (edit_start a0 args).staging = a0.staging := by
  unfold edit_start
  cases args.manifest <;> exact ⟨rfl, rfl⟩

/-- Claim C9: for every artifact, edit with the version argument omitted
clears staging (silently discarding any pending staged file list), appends no
entry to versions, and resolves the snapshot index max(0, N-1), overwriting
the latest committed snapshot in place rather than creating a version. -/
theorem C9_edit_default_overwrites (a0 : ArtifactModel)
    (parent : Option ArtifactModel) (args : EditArgs) (vs : List VersionEntry)
    (res : ArtifactModel) (idx : Int)
    (hvs : a0.versions = some vs) (hver : args.version = none)
    (hres : edit_artifact a0 parent args = .ok (res, idx)) :
    res.versions = a0.versions
  ∧ pyView res.staging = none
  ∧ idx = max 0 ((vs.length : Int) - 1) := by
  have hsv : (edit_start a0 args).versions = some vs := by
    rw [(edit_start_fields a0 args).1, hvs]
  have hgvi : get_version_index (edit_start a0 args) .none =
      .ok (max 0 ((vs.length : Int) - 1)) := by
    unfold get_version_index
    rw [hsv]
  have hstep : edit_version_step (edit_start a0 args) args =
      .ok (edit_start a0 args, none, max 0 ((vs.length : Int) - 1)) := by
    unfold edit_version_step
    rw [hver]
    dsimp only
    rw [hgvi]
  unfold edit_artifact at hres
  rw [hstep] at hres
  dsimp only at hres
  cases hcs : edit_config_step (edit_start a0 args) parent args with
  | error e =>
      rw [hcs] at hres
      cases hres
  | ok a4 =>
      rw [hcs] at hres
      dsimp only at hres
      cases hres
      have hfin := edit_finalize_fields a4 args none
      refine ⟨?_, ?_, rfl⟩
      · rw [hfin.2.1, (edit_config_step_versions _ _ _ _ hcs).1,
          (edit_start_fields a0 args).1]
      · rw [hfin.2.2]
        simp [pyView]

/-- Witness for C9 at the concrete edit instance. -/
theorem C9_edit_default_overwrites_witness :
    edit_artifact artTwo none editArgsConfig = .ok (editOutVerbatim, 1)
  ∧ editOutVerbatim.versions = artTwo.versions
  ∧ pyView editOutVerbatim.staging = none := by
  have hres : edit_artifact artTwo none editArgsConfig =
      .ok (editOutVerbatim, 1) := by decide
  have h := C9_edit_default_overwrites artTwo none editArgsConfig
    [entryV0, entryV1] editOutVerbatim 1 rfl rfl hres
  exact ⟨hres, h.1, h.2.1⟩

/-- Claim C10: a permission code outside the twelve documented ones expands
to the empty operation list, so an artifact-local entry carrying it grants
nothing at that step and no error is raised: for a user whose only applicable
entry is such a code (and no wildcard keys), the decision falls through to
the workspace-tier check. -/
theorem C10_unknown_code_denies (s : String)
    (hs : s ∉ ["n", "l", "l+", "lv", "lv+", "lf", "lf+", "r", "r+", "rw",
               "rw+", "*"]) :
    expand_permission (.code s) = []
  ∧ (∀ op : String, op ∉ expand_permission (.code s))
  ∧ (∀ (a : ArtifactModel) (u : UserInfo) (op : String),
      (getPermissions a).lookup u.id = some (.code s) →
      (getPermissions a).lookup "@" = none →
      (getPermissions a).lookup "*" = none →
      check_permissions a u op = false)
  ∧ (∀ (db : List ArtifactModel) (u : UserInfo) (aid op : String)
      (required : UserPermission) (a : ArtifactModel)
      (parent : Option ArtifactModel),
      operation_map.lookup op = some required →
      get_artifact_with_parent db aid = .ok (a, parent) →
      (getPermissions a).lookup u.id = some (.code s) →
      (getPermissions a).lookup "@" = none →
      (getPermissions a).lookup "*" = none →
      get_artifact_with_permission db u aid op =
        (if u.check_permission a.workspace required then .ok (a, parent)
         else .error (.permissionError PERMISSION_DENIED_MSG))) := by
  have hne := hs
  simp only [List.mem_cons, List.not_mem_nil, or_false, not_or] at hne
  obtain ⟨h1, h2, h3, h4, h5, h6, h7, h8, h9, h10, h11, h12⟩ := hne
  have hmap : permission_map.lookup s = none := by
    simp only [permission_map, List.lookup,
      beq_eq_false_iff_ne.mpr h1, beq_eq_false_iff_ne.mpr h2,
      beq_eq_false_iff_ne.mpr h3, beq_eq_false_iff_ne.mpr h4,
      beq_eq_false_iff_ne.mpr h5, beq_eq_false_iff_ne.mpr h6,
      beq_eq_false_iff_ne.mpr h7, beq_eq_false_iff_ne.mpr h8,
      beq_eq_false_iff_ne.mpr h9, beq_eq_false_iff_ne.mpr h10,
      beq_eq_false_iff_ne.mpr h11, beq_eq_false_iff_ne.mpr h12]
  have hexp : expand_permission (.code s) = [] := by
    unfold expand_permission
    dsimp only
    rw [hmap]
    rfl
  have hcp : ∀ (a : ArtifactModel) (u : UserInfo) (op : String),
      (getPermissions a).lookup u.id = some (.code s) →
      (getPermissions a).lookup "@" = none →
      (getPermissions a).lookup "*" = none →
      check_permissions a u op = false := by
    intro a u op hu hat hstar
    unfold check_permissions grant_by
    dsimp only
    rw [hu, hat, hstar]
    simp [hexp]
  refine ⟨hexp, ?_, hcp, ?_⟩
  · intro op
    rw [hexp]
    exact List.not_mem_nil op
  · intro db u aid op required a parent hop hart hu hat hstar
    unfold get_artifact_with_permission
    rw [hop, hart]
    dsimp only
    rw [hcp a u op hu hat hstar]
    simp

/-- Witness for C10 with the unrecognized code rwx. -/
theorem C10_unknown_code_denies_witness :
    expand_permission (.code "rwx") = []
  ∧ check_permissions artUnknownCode userUnknownCode "edit" = false := by
  have h := C10_unknown_code_denies "rwx" (by decide)
  exact ⟨h.1, h.2.2.1 artUnknownCode userUnknownCode "edit"
    (by decide) (by decide) (by decide)⟩
